import Mathlib

/-!
Verification development for the ClawDBot Studio Connection Orchestrator
(`electron/preload.cjs` / main process).  The JavaScript source is shallowly
embedded: JSON values are an inductive type, JS numbers are rationals with
`Option` marking the non-finite results of `Number(...)` coercion, host
behaviour that the program does not control (the WHATWG URL parser, JS
number formatting, `JSON.parse`, `JSON.stringify`, the network) is passed
in as explicit oracle parameters, and the mutable module-level state
(`connectionState`, `runtimeState`, `remoteCache`, the reconnect timer and
the manual-disconnect flag) is threaded explicitly through the functions
that mutate it.
-/

/-- JSON values as produced by `JSON.parse`. -/
inductive Json where
  | null : Json
  | bool : Bool → Json
  | num : ℚ → Json
  | str : String → Json
  | arr : List Json → Json
  | obj : List (String × Json) → Json

/-- Host-dependent coercions the source relies on: `Number(string)`,
`Number(array)`, number-to-string formatting, `String(...)` of arrays and
objects, and `JSON.stringify`.  `none` models a non-finite numeric result. -/
structure JsOracles where
  strNum : String → Option ℚ
  arrNum : List Json → Option ℚ
  numToStr : ℚ → String
  jsStr : Json → String
  stringify : Json → String

/-- A trivial oracle instantiation used for concrete evaluations. -/
def trivOracles : JsOracles :=
  { strNum := fun _ => none
    arrNum := fun _ => none
    numToStr := fun _ => "0"
    jsStr := fun _ => ""
    stringify := fun _ => "obj" }

/-- JS truthiness of a JSON value (`NaN` cannot occur: JSON numbers are finite). -/
def jsFalsy : Json → Bool
  | Json.null => true
  | Json.bool b => !b
  | Json.num q => q == 0
  | Json.str s => s == ""
  | Json.arr _ => false
  | Json.obj _ => false

/-- `typeof v === "object"` (true for `null`, arrays and plain objects). -/
def jsTypeofObject : Json → Bool
  | Json.null => true
  | Json.arr _ => true
  | Json.obj _ => true
  | _ => false

/-- `Array.isArray`. -/
def jsIsArray : Json → Bool
  | Json.arr _ => true
  | _ => false

/-- First binding of a key in an object literal's field list. -/
def lookupField : List (String × Json) → String → Option Json
  | [], _ => none
  | (k', v) :: rest, k => if k' = k then some v else lookupField rest k

/-- Property access `j[k]`; `none` models JS `undefined`. -/
def getField (j : Json) (k : String) : Option Json :=
  match j with
  | Json.obj fs => lookupField fs k
  | _ => none

/-- The nullish-coalescing operator `a ?? b`. -/
def jsCoalesce (a b : Option Json) : Option Json :=
  match a with
  | none => b
  | some Json.null => b
  | some v => some v

/-- `src[k1] ?? src[k2] ?? src[k3]`. -/
def chain3 (src : Json) (k1 k2 k3 : String) : Option Json :=
  jsCoalesce (getField src k1) (jsCoalesce (getField src k2) (getField src k3))

/-- `Number(v)` on a JSON value; `none` models `NaN` / infinities. -/
def jsNumber (o : JsOracles) : Json → Option ℚ
  | Json.null => some 0
  | Json.bool b => some (if b then 1 else 0)
  | Json.num q => some q
  | Json.str s => o.strNum s
  | Json.arr l => o.arrNum l
  | Json.obj _ => none

/-- `String(v)` on a JSON value. -/
def jsStringCoerce (o : JsOracles) : Json → String
  | Json.str s => s
  | Json.bool true => "true"
  | Json.bool false => "false"
  | Json.null => "null"
  | Json.num q => o.numToStr q
  | Json.arr l => o.jsStr (Json.arr l)
  | Json.obj fs => o.jsStr (Json.obj fs)

/-- ASCII lower-casing of a string, as used by `toLowerCase()` on the
status strings this program matches. -/
def jsToLower (s : String) : String :=
  String.mk (s.data.map Char.toLower)

/-- ASCII upper-casing, as used by `toUpperCase()` on the level tag. -/
def jsToUpper (s : String) : String :=
  String.mk (s.data.map Char.toUpper)

/-- JS whitespace characters relevant to `trim()`. -/
def isJsSpace (c : Char) : Bool :=
  c == ' ' || c == '\t' || c == '\n' || c == '\r' || c == '\x0b' || c == '\x0c'

/-- `s.trim()`. -/
def jsTrim (s : String) : String :=
  String.mk (((s.data.dropWhile isJsSpace).reverse.dropWhile isJsSpace).reverse)

/-- `Math.max` on finite JS numbers. -/
def jsMax (a b : ℚ) : ℚ := if a ≤ b then b else a

/-- `Math.min` on finite JS numbers. -/
def jsMin (a b : ℚ) : ℚ := if a ≤ b then a else b

/-- `clamp` from the source: `Math.max(min, Math.min(max, value))`. -/
def clamp (value min' max' : ℚ) : ℚ :=
  jsMax min' (jsMin max' value)

/-- `numberOrFallback` from the source, applied to a possibly-absent JSON
value: `Number(value)` when finite, the fallback otherwise. -/
def numberOrFallback (o : JsOracles) (value : Option Json) (fallback : ℚ) : ℚ :=
  match value with
  | none => fallback
  | some j =>
    match jsNumber o j with
    | some q => q
    | none => fallback

/-- `normalizeStatus` from the source.  The argument is either a JSON value
from the payload or (right injection) the cached status string used as the
final `??` fallback. -/
def normalizeStatus (o : JsOracles) (value : Json ⊕ String) : String :=
  let base :=
    match value with
    | Sum.inl j => if jsFalsy j then "idle" else jsStringCoerce o j
    | Sum.inr s => if s = "" then "idle" else s
  let normalized := jsToLower base
  if normalized ∈ ["running", "paused", "stopped", "idle"] then normalized
  else if normalized ∈ ["active", "busy", "processing"] then "running"
  else if normalized ∈ ["halted", "terminated", "off"] then "stopped"
  else "idle"

/-- The canonical Snapshot record (`runtimeState` shape). -/
structure SnapRec where
  status : String
  queueDepth : ℚ
  jobsProcessed : ℚ
  successRate : ℚ
  activeWorkers : ℚ
  lastHeartbeat : String
deriving DecidableEq

/-- The initial `runtimeState` from the source. -/
def initialRuntimeState (bootTime : String) : SnapRec :=
  { status := "idle"
    queueDepth := 18
    jobsProcessed := 1284
    successRate := mkRat 943 10
    activeWorkers := 4
    lastHeartbeat := bootTime }

/-- `payload.snapshot && typeof payload.snapshot === "object"`. -/
def truthyObjectField (x : Option Json) : Bool :=
  match x with
  | some j => !jsFalsy j && jsTypeofObject j
  | none => false

/-- Source selection in `normalizeSnapshot`: the `snapshot` field when it is
a truthy object, else the `data` field when it is a truthy object, else the
payload itself. -/
def selectSource (p : Json) : Json :=
  if truthyObjectField (getField p "snapshot") then (getField p "snapshot").getD Json.null
  else if truthyObjectField (getField p "data") then (getField p "data").getD Json.null
  else p

/-- `normalizeSnapshot` from the source.  `prev` is the current
`runtimeState` (the fallback source), `now` is `new Date().toISOString()`,
and `none` for the payload models JS `undefined`. -/
def normalizeSnapshot (o : JsOracles) (prev : SnapRec) (now : String)
    (payload : Option Json) : Option SnapRec :=
  match payload with
  | none => none
  | some p =>
    if jsFalsy p || !jsTypeofObject p then none
    else
      if jsFalsy (selectSource p) || jsIsArray (selectSource p) ||
          !jsTypeofObject (selectSource p) then none
      else
        some
          { status := normalizeStatus o
              (match chain3 (selectSource p) "status" "state" "mode" with
               | some j => Sum.inl j
               | none => Sum.inr prev.status)
            queueDepth := clamp (numberOrFallback o
              (chain3 (selectSource p) "queueDepth" "queue_depth" "queue") prev.queueDepth) 0 10000
            jobsProcessed := clamp (numberOrFallback o
              (chain3 (selectSource p) "jobsProcessed" "jobs_processed" "jobs") prev.jobsProcessed) 0 100000000
            successRate := clamp (numberOrFallback o
              (chain3 (selectSource p) "successRate" "success_rate" "success") prev.successRate) 0 100
            activeWorkers := clamp (numberOrFallback o
              (chain3 (selectSource p) "activeWorkers" "active_workers" "workers") prev.activeWorkers) 0 1000
            lastHeartbeat :=
              match chain3 (selectSource p) "lastHeartbeat" "last_heartbeat" "heartbeat" with
              | some j => jsStringCoerce o j
              | none => now }

/-- The exact guard condition under which `normalizeSnapshot` returns `null`. -/
def snapshotRejected (payload : Option Json) : Bool :=
  match payload with
  | none => true
  | some p =>
    jsFalsy p || !jsTypeofObject p ||
      (jsFalsy (selectSource p) || jsIsArray (selectSource p) ||
        !jsTypeofObject (selectSource p))

theorem clamp_mem (q lo hi : ℚ) (h : lo ≤ hi) :
    lo ≤ clamp q lo hi ∧ clamp q lo hi ≤ hi := by
  unfold clamp jsMax jsMin
  split_ifs <;> constructor <;> linarith

theorem normalizeSnapshot_none_iff (o : JsOracles) (prev : SnapRec) (now : String)
    (payload : Option Json) :
    normalizeSnapshot o prev now payload = none ↔ snapshotRejected payload = true := by
  cases payload with
  | none => simp [normalizeSnapshot, snapshotRejected]
  | some p =>
    simp only [normalizeSnapshot, snapshotRejected]
    split_ifs with h1 h2 <;> simp_all

theorem normalizeSnapshot_ranges (o : JsOracles) (prev : SnapRec) (now : String)
    (payload : Option Json) (r : SnapRec)
    (hr : normalizeSnapshot o prev now payload = some r) :
    (0 ≤ r.queueDepth ∧ r.queueDepth ≤ 10000) ∧
    (0 ≤ r.jobsProcessed ∧ r.jobsProcessed ≤ 100000000) ∧
    (0 ≤ r.successRate ∧ r.successRate ≤ 100) ∧
    (0 ≤ r.activeWorkers ∧ r.activeWorkers ≤ 1000) := by
  cases payload with
  | none => simp [normalizeSnapshot] at hr
  | some p =>
    simp only [normalizeSnapshot] at hr
    split_ifs at hr
    rw [Option.some_inj] at hr
    subst hr
    exact ⟨clamp_mem _ _ _ (by norm_num), clamp_mem _ _ _ (by norm_num),
      clamp_mem _ _ _ (by norm_num), clamp_mem _ _ _ (by norm_num)⟩

theorem normalizeSnapshot_absent_fallback (o : JsOracles) (prev : SnapRec) (now : String)
    (p : Json) (r : SnapRec)
    (hr : normalizeSnapshot o prev now (some p) = some r) :
    ((chain3 (selectSource p) "queueDepth" "queue_depth" "queue" = none →
      r.queueDepth = clamp prev.queueDepth 0 10000) ∧
     (∀ j : Json, chain3 (selectSource p) "queueDepth" "queue_depth" "queue" = some j →
      jsNumber o j = none → r.queueDepth = clamp prev.queueDepth 0 10000)) ∧
    ((chain3 (selectSource p) "jobsProcessed" "jobs_processed" "jobs" = none →
      r.jobsProcessed = clamp prev.jobsProcessed 0 100000000) ∧
     (∀ j : Json, chain3 (selectSource p) "jobsProcessed" "jobs_processed" "jobs" = some j →
      jsNumber o j = none → r.jobsProcessed = clamp prev.jobsProcessed 0 100000000)) ∧
    ((chain3 (selectSource p) "successRate" "success_rate" "success" = none →
      r.successRate = clamp prev.successRate 0 100) ∧
     (∀ j : Json, chain3 (selectSource p) "successRate" "success_rate" "success" = some j →
      jsNumber o j = none → r.successRate = clamp prev.successRate 0 100)) ∧
    ((chain3 (selectSource p) "activeWorkers" "active_workers" "workers" = none →
      r.activeWorkers = clamp prev.activeWorkers 0 1000) ∧
     (∀ j : Json, chain3 (selectSource p) "activeWorkers" "active_workers" "workers" = some j →
      jsNumber o j = none → r.activeWorkers = clamp prev.activeWorkers 0 1000)) := by
  simp only [normalizeSnapshot] at hr
  split_ifs at hr
  rw [Option.some_inj] at hr
  subst hr
  refine ⟨⟨fun hq => ?_, fun j hj hn => ?_⟩, ⟨fun hq => ?_, fun j hj hn => ?_⟩,
    ⟨fun hq => ?_, fun j hj hn => ?_⟩, ⟨fun hq => ?_, fun j hj hn => ?_⟩⟩ <;>
    simp [numberOrFallback, *]

/-- Concrete payload for the C2 counterexample: an object whose `snapshot`
field is an array. -/
def c2Payload : Json := Json.obj [("snapshot", Json.arr [])]

/-- Concrete payload for the C2 witness: an object with an out-of-range
`queueDepth`. -/
def c2WitnessPayload : Json := Json.obj [("queueDepth", Json.num 50000)]

/-- The snapshot the C2 witness payload normalizes to. -/
def c2WitnessSnap : SnapRec :=
  { status := "idle"
    queueDepth := 10000
    jobsProcessed := 1284
    successRate := mkRat 943 10
    activeWorkers := 4
    lastHeartbeat := "t1" }

/-- Claim C2 (counterexample): `normalizeSnapshot` applied to the object
payload `(obj (snapshot (arr)))` — which is an object, not an array,
primitive or absent value — still returns `null`, because the selected
inner source is an array.  This refutes the claim that `null` is returned
only when the payload is not an object at all. -/
theorem c2_normalizeSnapshot_counterexample :
    jsTypeofObject c2Payload = true ∧ jsIsArray c2Payload = false ∧
      normalizeSnapshot trivOracles (initialRuntimeState "t0") "t1" (some c2Payload) = none := by
  refine ⟨rfl, rfl, ?_⟩
  decide

/-- Claim C2 (amended): `normalizeSnapshot` returns `null` exactly when the
payload is absent, a primitive, or when the selected source (the `snapshot`
field if a truthy object, else the `data` field if a truthy object, else
the payload itself) is falsy, an array, or not of object type; otherwise it
returns a Snapshot whose numeric fields all lie in the declared ranges
(queueDepth in [0,10000], jobsProcessed in [0,1e8], successRate in [0,100],
activeWorkers in [0,1000]), and a field whose incoming value is absent (all
aliases missing) or non-numeric (the first present alias coerces to a
non-finite JS number) is the clamp of the previous cached value. -/
theorem c2_normalizeSnapshot_amended (o : JsOracles) (prev : SnapRec) (now : String)
    (payload : Option Json) :
    (normalizeSnapshot o prev now payload = none ↔ snapshotRejected payload = true) ∧
    (∀ r : SnapRec, normalizeSnapshot o prev now payload = some r →
      (0 ≤ r.queueDepth ∧ r.queueDepth ≤ 10000) ∧
      (0 ≤ r.jobsProcessed ∧ r.jobsProcessed ≤ 100000000) ∧
      (0 ≤ r.successRate ∧ r.successRate ≤ 100) ∧
      (0 ≤ r.activeWorkers ∧ r.activeWorkers ≤ 1000)) ∧
    (∀ (p : Json) (r : SnapRec), payload = some p →
      normalizeSnapshot o prev now payload = some r →
      ((chain3 (selectSource p) "queueDepth" "queue_depth" "queue" = none →
        r.queueDepth = clamp prev.queueDepth 0 10000) ∧
       (∀ j : Json, chain3 (selectSource p) "queueDepth" "queue_depth" "queue" = some j →
        jsNumber o j = none → r.queueDepth = clamp prev.queueDepth 0 10000)) ∧
      ((chain3 (selectSource p) "jobsProcessed" "jobs_processed" "jobs" = none →
        r.jobsProcessed = clamp prev.jobsProcessed 0 100000000) ∧
       (∀ j : Json, chain3 (selectSource p) "jobsProcessed" "jobs_processed" "jobs" = some j →
        jsNumber o j = none → r.jobsProcessed = clamp prev.jobsProcessed 0 100000000)) ∧
      ((chain3 (selectSource p) "successRate" "success_rate" "success" = none →
        r.successRate = clamp prev.successRate 0 100) ∧
       (∀ j : Json, chain3 (selectSource p) "successRate" "success_rate" "success" = some j →
        jsNumber o j = none → r.successRate = clamp prev.successRate 0 100)) ∧
      ((chain3 (selectSource p) "activeWorkers" "active_workers" "workers" = none →
        r.activeWorkers = clamp prev.activeWorkers 0 1000) ∧
       (∀ j : Json, chain3 (selectSource p) "activeWorkers" "active_workers" "workers" = some j →
        jsNumber o j = none → r.activeWorkers = clamp prev.activeWorkers 0 1000))) := by
  refine ⟨normalizeSnapshot_none_iff o prev now payload,
    fun r hr => normalizeSnapshot_ranges o prev now payload r hr,
    fun p r hp hr => ?_⟩
  subst hp
  exact normalizeSnapshot_absent_fallback o prev now p r hr

/-- Claim C2 (witness): the amended theorem applied to a concrete object
payload carrying an out-of-range queue depth. -/
theorem c2_normalizeSnapshot_witness :
    normalizeSnapshot trivOracles (initialRuntimeState "t0") "t1" (some c2WitnessPayload)
        = some c2WitnessSnap ∧
      (0 ≤ c2WitnessSnap.queueDepth ∧ c2WitnessSnap.queueDepth ≤ 10000) ∧
      (0 ≤ c2WitnessSnap.jobsProcessed ∧ c2WitnessSnap.jobsProcessed ≤ 100000000) ∧
      (0 ≤ c2WitnessSnap.successRate ∧ c2WitnessSnap.successRate ≤ 100) ∧
      (0 ≤ c2WitnessSnap.activeWorkers ∧ c2WitnessSnap.activeWorkers ≤ 1000) :=
  ⟨by decide,
    (c2_normalizeSnapshot_amended trivOracles (initialRuntimeState "t0") "t1"
      (some c2WitnessPayload)).2.1 c2WitnessSnap (by decide)⟩

/-- The components the WHATWG `URL` parser yields for a parsed URL, as the
source reads them (`protocol`, `host`, `pathname`). -/
structure UrlParts where
  protocol : String
  host : String
  pathname : String
deriving DecidableEq

/-- `replace(/\/+$/, "")`: strip all trailing slashes. -/
def stripTrailingSlashes (s : String) : String :=
  String.mk ((s.data.reverse.dropWhile (· == '/')).reverse)

/-- `replace(/^\/+/, "")`: strip all leading slashes. -/
def stripLeadingSlashes (s : String) : String :=
  String.mk (s.data.dropWhile (· == '/'))

/-- `/^https?:\/\//i.test(s)`. -/
def hasHttpSchemePrefix (s : String) : Bool :=
  match s.data.map Char.toLower with
  | 'h' :: 't' :: 't' :: 'p' :: 's' :: ':' :: '/' :: '/' :: _ => true
  | 'h' :: 't' :: 't' :: 'p' :: ':' :: '/' :: '/' :: _ => true
  | _ => false

/-- `/^wss?:\/\//i.test(s)`. -/
def hasWsSchemePrefix (s : String) : Bool :=
  match s.data.map Char.toLower with
  | 'w' :: 's' :: 's' :: ':' :: '/' :: '/' :: _ => true
  | 'w' :: 's' :: ':' :: '/' :: '/' :: _ => true
  | _ => false

/-- `s.replace(/^http/i, "ws")`: replace a leading case-insensitive `http`
with `ws`, otherwise return the string unchanged. -/
def jsReplaceHttpWs (s : String) : String :=
  match s.data with
  | a :: b :: c :: d :: rest =>
    if a.toLower == 'h' && b.toLower == 't' && c.toLower == 't' && d.toLower == 'p' then
      String.mk ('w' :: 's' :: rest)
    else s
  | _ => s

/-- The string handed to `new URL(...)` by `normalizeHttpEndpoint`. -/
def withProtocolOf (raw : String) : String :=
  if hasHttpSchemePrefix raw then raw else "http://" ++ raw

/-- `normalizeHttpEndpoint` from the source.  `parseUrl` is the host URL
parser; `none` models a thrown parse error (caught by the source's
`try`/`catch`, which degrades to the empty string). -/
def normalizeHttpEndpoint (parseUrl : String → Option UrlParts) (endpoint : String) : String :=
  if jsTrim endpoint = "" then ""
  else
    match parseUrl (withProtocolOf (jsTrim endpoint)) with
    | some u => stripTrailingSlashes (u.protocol ++ "//" ++ u.host ++ u.pathname)
    | none => ""

/-- `joinUrl` from the source. -/
def joinUrl (base suffix : String) : String :=
  stripTrailingSlashes base ++
    (match suffix.data with
     | '/' :: _ => suffix
     | _ => "/" ++ suffix)

/-- The configuration record as read back by `readConfig` (only the fields
the Connection Orchestrator consumes).  `pollingIntervalMs` and
`autoReconnect` are arbitrary JSON because a hand-edited config file can
hold any value there. -/
structure StudioConfig where
  apiEndpoint : String
  wsEndpoint : String
  pollingIntervalMs : Json
  autoReconnect : Json

/-- `toWebSocketEndpoint` from the source. -/
def toWebSocketEndpoint (parseUrl : String → Option UrlParts) (config : StudioConfig) : String :=
  if jsTrim config.wsEndpoint ≠ "" then
    if hasWsSchemePrefix (jsTrim config.wsEndpoint) then jsTrim config.wsEndpoint
    else if hasHttpSchemePrefix (jsTrim config.wsEndpoint) then
      jsReplaceHttpWs (jsTrim config.wsEndpoint)
    else "ws://" ++ stripLeadingSlashes (jsTrim config.wsEndpoint)
  else
    if normalizeHttpEndpoint parseUrl config.apiEndpoint = "" then ""
    else jsReplaceHttpWs (normalizeHttpEndpoint parseUrl config.apiEndpoint) ++ "/ws"

/-- Claim C7: endpoint normalization is total (the Lean functions are total
by construction, mirroring the source's `try`/`catch` and fallbacks): the
normalizer returns either the empty string or the canonical form
`protocol + "//" + host + pathname` with trailing slashes stripped for the
parts the URL parser produced; when no explicit streaming value is supplied
the derived streaming endpoint is empty exactly when the canonical HTTP
endpoint is empty, and otherwise equals that endpoint with a leading `http`
replaced by `ws` and `/ws` appended; and the replacement does convert an
`http(s)` scheme to the `ws(s)` scheme. -/
theorem c7_endpoint_normalization :
    (∀ (parseUrl : String → Option UrlParts) (endpoint : String),
      normalizeHttpEndpoint parseUrl endpoint = "" ∨
        ∃ u : UrlParts, parseUrl (withProtocolOf (jsTrim endpoint)) = some u ∧
          normalizeHttpEndpoint parseUrl endpoint =
            stripTrailingSlashes (u.protocol ++ "//" ++ u.host ++ u.pathname)) ∧
    (∀ (parseUrl : String → Option UrlParts) (config : StudioConfig),
      jsTrim config.wsEndpoint = "" →
        (normalizeHttpEndpoint parseUrl config.apiEndpoint = "" →
          toWebSocketEndpoint parseUrl config = "") ∧
        (normalizeHttpEndpoint parseUrl config.apiEndpoint ≠ "" →
          toWebSocketEndpoint parseUrl config =
            jsReplaceHttpWs (normalizeHttpEndpoint parseUrl config.apiEndpoint) ++ "/ws")) ∧
    (∀ rest : String, jsReplaceHttpWs ("http" ++ rest) = "ws" ++ rest) := by
  refine ⟨fun parseUrl endpoint => ?_, fun parseUrl config hws => ?_, fun rest => ?_⟩
  · by_cases h0 : jsTrim endpoint = ""
    · left
      simp [normalizeHttpEndpoint, h0]
    · cases hu : parseUrl (withProtocolOf (jsTrim endpoint)) with
      | none => left; simp [normalizeHttpEndpoint, h0, hu]
      | some u => right; exact ⟨u, rfl, by simp [normalizeHttpEndpoint, h0, hu]⟩
  · constructor
    · intro happ
      simp [toWebSocketEndpoint, hws, happ]
    · intro happ
      simp [toWebSocketEndpoint, hws, happ]
  · cases rest
    rfl

/-- A concrete URL-parser oracle behaving like WHATWG `URL` on the default
endpoint. -/
def urlOracle : String → Option UrlParts := fun s =>
  if s = "http://127.0.0.1:5050" then some ⟨"http:", "127.0.0.1:5050", "/"⟩ else none

/-- A concrete configuration with the default API endpoint and no explicit
streaming endpoint. -/
def sampleConfig : StudioConfig :=
  { apiEndpoint := "127.0.0.1:5050"
    wsEndpoint := ""
    pollingIntervalMs := Json.num 5000
    autoReconnect := Json.bool true }

/-- Claim C7 (witness): the normalization theorem applied to the default
endpoint with a concrete URL-parser oracle. -/
theorem c7_endpoint_normalization_witness :
    toWebSocketEndpoint urlOracle sampleConfig =
        jsReplaceHttpWs (normalizeHttpEndpoint urlOracle sampleConfig.apiEndpoint) ++ "/ws" ∧
      jsReplaceHttpWs ("http" ++ "://127.0.0.1:5050") = "ws" ++ "://127.0.0.1:5050" :=
  ⟨(c7_endpoint_normalization.2.1 urlOracle sampleConfig (by decide)).2 (by decide),
    c7_endpoint_normalization.2.2 "://127.0.0.1:5050"⟩

/-- Split a character list at every occurrence of the separator (the
behaviour of JS `String.prototype.split` with a single-character string). -/
def splitOnChar (c : Char) : List Char → List (List Char)
  | [] => [[]]
  | x :: xs =>
    let r := splitOnChar c xs
    if x = c then [] :: r
    else
      match r with
      | y :: ys => (x :: y) :: ys
      | [] => [[x]]

/-- `s.split("\n")`. -/
def jsSplitOnNewline (s : String) : List String :=
  (splitOnChar '\n' s.data).map String.mk

/-- Strip one trailing carriage return. -/
def stripTrailingCR (s : String) : String :=
  match s.data.reverse with
  | '\r' :: rest => String.mk rest.reverse
  | _ => s

/-- Strip one trailing carriage return from every piece except the last:
composing this with the newline split yields `split(/\r?\n/)`, since the
regex consumes at most one `\r` directly before each `\n`. -/
def stripCRAllButLast : List String → List String
  | [] => []
  | [x] => [x]
  | x :: xs => stripTrailingCR x :: stripCRAllButLast xs

/-- `s.split(/\r?\n/)`. -/
def jsSplitLines (s : String) : List String :=
  stripCRAllButLast (jsSplitOnNewline s)

/-- `/^\[\d{4}-\d{2}-\d{2}T/.test(s)`: the canonical timestamp prefix. -/
def tsPrefixed (s : String) : Bool :=
  match s.data with
  | '[' :: a :: b :: c :: d :: '-' :: e :: f :: '-' :: g :: h :: 'T' :: _ =>
    a.isDigit && b.isDigit && c.isDigit && d.isDigit &&
      e.isDigit && f.isDigit && g.isDigit && h.isDigit
  | _ => false

/-- `formatLog` from the source; `now` is `new Date().toISOString()`. -/
def formatLog (now message level : String) : String :=
  "[" ++ now ++ "] [" ++ level ++ "] " ++ message

/-- Entry selection in `extractLogs`: array payload, `logs`/`data` array
field, `log`/`message` string field, else non-blank raw text split into
lines.  `none` for the payload models JS `undefined`/`null` arguments
uniformly (`some Json.null` behaves identically via falsiness). -/
def selectEntries (payload : Option Json) (text : String) : List Json :=
  match payload with
  | some (Json.arr l) => l
  | _ =>
    match (do getField (← payload) "logs" : Option Json) with
    | some (Json.arr l) => l
    | _ =>
      match (do getField (← payload) "data" : Option Json) with
      | some (Json.arr l) => l
      | _ =>
        match (do getField (← payload) "log" : Option Json) with
        | some (Json.str s) => [Json.str s]
        | _ =>
          match (do getField (← payload) "message" : Option Json) with
          | some (Json.str s) => [Json.str s]
          | _ =>
            if jsTrim text ≠ "" then (jsSplitLines text).map Json.str else []

/-- The per-entry mapping inside `extractLogs`: strings pass through (or are
wrapped with a synthesized timestamp and `REMOTE` tag), objects and arrays
are formatted from their `message`/`timestamp`/`level` aliases, and other
values map to `null`. -/
def mapLogEntry (o : JsOracles) (now : String) : Json → Option String
  | Json.str s =>
    if jsTrim s = "" then none
    else some (if tsPrefixed s then s else formatLog now ("[REMOTE] " ++ s) "REMOTE")
  | Json.null => none
  | Json.bool _ => none
  | Json.num _ => none
  | j =>
    some ("[" ++
      (match chain3 j "timestamp" "time" "ts" with
       | some v => jsStringCoerce o v
       | none => now) ++ "] [" ++
      jsToUpper (match jsCoalesce (getField j "level") (getField j "severity") with
       | some v => jsStringCoerce o v
       | none => "REMOTE") ++ "] " ++
      (match chain3 j "message" "log" "msg" with
       | some v => jsStringCoerce o v
       | none => o.stringify j))

/-- `.filter(Boolean)` over an array of strings and nulls. -/
def jsFilterBoolean (l : List (Option String)) : List String :=
  l.filterMap fun x =>
    match x with
    | none => none
    | some s => if s = "" then none else some s

/-- `arr.slice(-n)` for `n > 0`: the last `n` elements. -/
def jsSliceLast (n : ℕ) (l : List α) : List α :=
  l.drop (l.length - n)

/-- `extractLogs` from the source. -/
def extractLogs (o : JsOracles) (now : String) (payload : Option Json) (text : String) :
    List String :=
  jsSliceLast 500 (jsFilterBoolean ((selectEntries payload text).map (mapLogEntry o now)))

theorem jsSliceLast_length_le (n : ℕ) (l : List α) : (jsSliceLast n l).length ≤ n := by
  simp [jsSliceLast]
  omega

theorem jsSliceLast_sublist (n : ℕ) (l : List α) : (jsSliceLast n l).Sublist l :=
  List.drop_sublist _ _

theorem jsFilterBoolean_map (f : α → Option String) (l : List α) :
    jsFilterBoolean (l.map f) =
      l.filterMap fun e =>
        match f e with
        | none => none
        | some s => if s = "" then none else some s := by
  induction l with
  | nil => rfl
  | cons x xs ih =>
    simp only [List.map_cons, jsFilterBoolean, List.filterMap_cons] at *
    cases f x with
    | none => simpa using ih
    | some s => by_cases hs : s = "" <;> simp [hs] <;> simpa [jsFilterBoolean] using ih

/-- Claim C8: for every payload and raw text, `extractLogs` returns at most
500 entries, the output is an order-preserving subsequence of the mapped
input entries (so the relative order of kept entries is preserved), a
whitespace-only string entry maps to nothing, and every output entry stems
from an input entry that is not an empty/whitespace-only string. -/
theorem c8_extractLogs_bounded_ordered (o : JsOracles) (now : String)
    (payload : Option Json) (text : String) :
    (extractLogs o now payload text).length ≤ 500 ∧
    (extractLogs o now payload text).Sublist
      ((selectEntries payload text).filterMap fun e =>
        match mapLogEntry o now e with
        | none => none
        | some s => if s = "" then none else some s) ∧
    (∀ s : String, jsTrim s = "" → mapLogEntry o now (Json.str s) = none) ∧
    (∀ x ∈ extractLogs o now payload text,
      ∃ e ∈ selectEntries payload text,
        mapLogEntry o now e = some x ∧ ∀ s : String, e = Json.str s → jsTrim s ≠ "") := by
  have hsub : (extractLogs o now payload text).Sublist
      ((selectEntries payload text).filterMap fun e =>
        match mapLogEntry o now e with
        | none => none
        | some s => if s = "" then none else some s) := by
    rw [extractLogs, jsFilterBoolean_map]
    exact jsSliceLast_sublist _ _
  refine ⟨jsSliceLast_length_le _ _, hsub, fun s hs => by simp [mapLogEntry, hs], ?_⟩
  intro x hx
  have hx' := hsub.subset hx
  obtain ⟨e, he, hge⟩ := List.mem_filterMap.mp hx'
  cases hme : mapLogEntry o now e with
  | none => rw [hme] at hge; exact absurd hge (by simp)
  | some s' =>
    rw [hme] at hge
    by_cases hs' : s' = ""
    · simp [hs'] at hge
    · simp only [hs', if_false, if_neg hs', Option.some_inj] at hge
      subst hge
      refine ⟨e, he, hme, ?_⟩
      intro s hse htrim
      subst hse
      rw [show mapLogEntry o now (Json.str s) = none by simp [mapLogEntry, htrim]] at hme
      exact Option.noConfusion hme

/-- Claim C8 (witness): the theorem applied to a concrete array payload
containing a whitespace-only entry. -/
theorem c8_extractLogs_witness :
    (extractLogs trivOracles "T" (some (Json.arr [Json.str "  ", Json.str "hello"])) "").length ≤ 500 ∧
    (extractLogs trivOracles "T" (some (Json.arr [Json.str "  ", Json.str "hello"])) "").Sublist
      ((selectEntries (some (Json.arr [Json.str "  ", Json.str "hello"])) "").filterMap fun e =>
        match mapLogEntry trivOracles "T" e with
        | none => none
        | some s => if s = "" then none else some s) ∧
    (∀ s : String, jsTrim s = "" → mapLogEntry trivOracles "T" (Json.str s) = none) ∧
    (∀ x ∈ extractLogs trivOracles "T" (some (Json.arr [Json.str "  ", Json.str "hello"])) "",
      ∃ e ∈ selectEntries (some (Json.arr [Json.str "  ", Json.str "hello"])) "",
        mapLogEntry trivOracles "T" e = some x ∧
          ∀ s : String, e = Json.str s → jsTrim s ≠ "") :=
  c8_extractLogs_bounded_ordered trivOracles "T"
    (some (Json.arr [Json.str "  ", Json.str "hello"])) ""

/-- The `connectionState` record from the source. -/
structure ConnState where
  mode : String
  apiReachable : Bool
  apiEndpoint : String
  apiLatencyMs : Option ℕ
  wsConnected : Bool
  wsEndpoint : String
  lastCheck : Option String
  lastEventAt : Option String
  lastError : Option String
deriving DecidableEq

/-- Result of one `fetchEndpoint` call: either an HTTP response (with
status, parsed JSON body, and raw text) or a caught transport error whose
message is recorded in the `error` field. -/
inductive FetchResult where
  | http (status : ℕ) (data : Option Json) (text : String)
  | fail (msg : String)

/-- `response.ok` (fetch: status in 200..299; transport errors yield
`ok: false`). -/
def respOk : FetchResult → Bool
  | FetchResult.http status _ _ => 200 ≤ status && status < 300
  | FetchResult.fail _ => false

/-- `response.status` (transport errors yield status 0). -/
def respStatus : FetchResult → ℕ
  | FetchResult.http status _ _ => status
  | FetchResult.fail _ => 0

/-- `response.data`. -/
def respData : FetchResult → Option Json
  | FetchResult.http _ data _ => data
  | FetchResult.fail _ => none

/-- `response.text`. -/
def respText : FetchResult → String
  | FetchResult.http _ _ text => text
  | FetchResult.fail _ => ""

/-- The probe's acceptance test: `response.ok || (status >= 200 && status
< 500 && status !== 404)`. -/
def probeHit (r : FetchResult) : Bool :=
  respOk r || (200 ≤ respStatus r && respStatus r < 500 && respStatus r != 404)

def healthPaths : List String := ["/health", "/api/health", "/status", "/api/status", "/"]

def snapshotPaths : List String :=
  ["/snapshot", "/api/snapshot", "/bot/snapshot", "/status", "/api/status"]

def logsPaths : List String := ["/logs", "/api/logs", "/runtime/logs", "/api/runtime/logs"]

def actionPaths : List String :=
  ["/action", "/api/action", "/control/action", "/api/control/action"]

/-- The candidate loop of `probeApiConnection`.  `fetchO` maps each
requested URL to its outcome, `dur` gives each request's duration in
milliseconds (so the recorded latency is the elapsed wall-clock time since
`startedAt`), and the returned number counts the requests issued. -/
def probeLoop (fetchO : String → FetchResult) (dur : String → ℕ) (apiEndpoint : String)
    (c : ConnState) (paths : List String) (latestError : String) (elapsed requests : ℕ) :
    ConnState × ℕ :=
  match paths with
  | [] =>
    ({c with
        apiReachable := false
        apiLatencyMs := none
        mode := if c.wsConnected then "remote" else "local"
        lastError := some latestError}, requests)
  | p :: rest =>
    if probeHit (fetchO (joinUrl apiEndpoint p)) then
      ({c with
          apiReachable := true
          apiLatencyMs := some (elapsed + dur (joinUrl apiEndpoint p))
          mode := "remote"
          lastError := none}, requests + 1)
    else
      probeLoop fetchO dur apiEndpoint c rest
        (match fetchO (joinUrl apiEndpoint p) with
         | FetchResult.fail msg => if msg ≠ "" then msg else latestError
         | _ => latestError)
        (elapsed + dur (joinUrl apiEndpoint p)) (requests + 1)

/-- `probeApiConnection` from the source, acting on the `connectionState`
record; the second component counts the HTTP requests issued. -/
def probeApiConnection (fetchO : String → FetchResult) (dur : String → ℕ)
    (parseUrl : String → Option UrlParts) (now : String) (config : StudioConfig)
    (c : ConnState) : ConnState × ℕ :=
  if normalizeHttpEndpoint parseUrl config.apiEndpoint = "" then
    ({c with
        apiEndpoint := ""
        lastCheck := some now
        apiReachable := false
        apiLatencyMs := none
        mode := if c.wsConnected then "remote" else "local"
        lastError := some "API endpoint is not configured"}, 0)
  else
    probeLoop fetchO dur (normalizeHttpEndpoint parseUrl config.apiEndpoint)
      {c with
        apiEndpoint := normalizeHttpEndpoint parseUrl config.apiEndpoint
        lastCheck := some now}
      healthPaths "API endpoint did not respond" 0 0

theorem probeLoop_all_miss (fetchO : String → FetchResult) (dur : String → ℕ)
    (apiEndpoint : String) (c : ConnState) (paths : List String)
    (latestError : String) (elapsed requests : ℕ)
    (hall : ∀ p ∈ paths, probeHit (fetchO (joinUrl apiEndpoint p)) = false)
    (herr : latestError ≠ "") :
    ∃ e : String, e ≠ "" ∧
      (probeLoop fetchO dur apiEndpoint c paths latestError elapsed requests).1 =
        {c with
          apiReachable := false
          apiLatencyMs := none
          mode := if c.wsConnected then "remote" else "local"
          lastError := some e} := by
  induction paths generalizing latestError elapsed requests with
  | nil => exact ⟨latestError, herr, rfl⟩
  | cons p rest ih =>
    have hp := hall p (List.mem_cons_self p rest)
    have hrest : ∀ q ∈ rest, probeHit (fetchO (joinUrl apiEndpoint q)) = false :=
      fun q hq => hall q (List.mem_cons_of_mem p hq)
    rw [probeLoop, if_neg (by simp [hp])]
    refine ih _ _ _ hrest ?_
    cases fetchO (joinUrl apiEndpoint p) with
    | http status data text => simpa using herr
    | fail msg => by_cases hm : msg = "" <;> simp [hm, herr]

theorem probeLoop_hit (fetchO : String → FetchResult) (dur : String → ℕ)
    (apiEndpoint : String) (c : ConnState) (paths : List String)
    (latestError : String) (elapsed requests : ℕ)
    (hex : ∃ p ∈ paths, probeHit (fetchO (joinUrl apiEndpoint p)) = true) :
    ∃ n : ℕ,
      (probeLoop fetchO dur apiEndpoint c paths latestError elapsed requests).1 =
        {c with
          apiReachable := true
          apiLatencyMs := some n
          mode := "remote"
          lastError := none} := by
  induction paths generalizing latestError elapsed requests with
  | nil => obtain ⟨p, hp, _⟩ := hex; exact absurd hp (List.not_mem_nil p)
  | cons p rest ih =>
    by_cases hhead : probeHit (fetchO (joinUrl apiEndpoint p)) = true
    · exact ⟨elapsed + dur (joinUrl apiEndpoint p), by rw [probeLoop, if_pos hhead]⟩
    · obtain ⟨q, hq, hqt⟩ := hex
      rcases List.mem_cons.mp hq with rfl | hq'
      · exact absurd hqt hhead
      · rw [probeLoop, if_neg hhead]
        exact ih _ _ _ ⟨q, hq', hqt⟩

/-- The initial `connectionState` from the source. -/
def initialConnectionState : ConnState :=
  { mode := "local"
    apiReachable := false
    apiEndpoint := "http://127.0.0.1:5050"
    apiLatencyMs := none
    wsConnected := false
    wsEndpoint := ""
    lastCheck := none
    lastEventAt := none
    lastError := none }

/-- Claim C5: with an empty normalized endpoint the probe issues no request,
reports unreachable with a non-empty error and falls back to local mode when
the stream is disconnected; when some health path wins the acceptance test
(HTTP success or any non-404 status in the 2xx-4xx band) the probe records
reachable, a latency value, no error and remote mode; and when every
candidate misses it reports unreachable with a non-empty error, the mode
again falling back to local exactly when the stream is disconnected. -/
theorem c5_probe_reachability (fetchO : String → FetchResult) (dur : String → ℕ)
    (parseUrl : String → Option UrlParts) (now : String) (config : StudioConfig)
    (c : ConnState) :
    (normalizeHttpEndpoint parseUrl config.apiEndpoint = "" →
      (probeApiConnection fetchO dur parseUrl now config c).2 = 0 ∧
      (probeApiConnection fetchO dur parseUrl now config c).1.apiReachable = false ∧
      (probeApiConnection fetchO dur parseUrl now config c).1.lastError =
        some "API endpoint is not configured" ∧
      (probeApiConnection fetchO dur parseUrl now config c).1.mode =
        (if c.wsConnected then "remote" else "local")) ∧
    (normalizeHttpEndpoint parseUrl config.apiEndpoint ≠ "" →
      (∃ p ∈ healthPaths,
        probeHit (fetchO (joinUrl (normalizeHttpEndpoint parseUrl config.apiEndpoint) p)) = true) →
      ∃ n : ℕ,
        (probeApiConnection fetchO dur parseUrl now config c).1.apiReachable = true ∧
        (probeApiConnection fetchO dur parseUrl now config c).1.apiLatencyMs = some n ∧
        (probeApiConnection fetchO dur parseUrl now config c).1.lastError = none ∧
        (probeApiConnection fetchO dur parseUrl now config c).1.mode = "remote") ∧
    (normalizeHttpEndpoint parseUrl config.apiEndpoint ≠ "" →
      (∀ p ∈ healthPaths,
        probeHit (fetchO (joinUrl (normalizeHttpEndpoint parseUrl config.apiEndpoint) p)) = false) →
      ∃ e : String, e ≠ "" ∧
        (probeApiConnection fetchO dur parseUrl now config c).1.apiReachable = false ∧
        (probeApiConnection fetchO dur parseUrl now config c).1.lastError = some e ∧
        (probeApiConnection fetchO dur parseUrl now config c).1.mode =
          (if c.wsConnected then "remote" else "local")) := by
  refine ⟨fun hemp => ?_, fun hne hex => ?_, fun hne hall => ?_⟩
  · simp [probeApiConnection, hemp]
  · rw [probeApiConnection, if_neg hne] at *
    obtain ⟨n, hn⟩ := probeLoop_hit fetchO dur
      (normalizeHttpEndpoint parseUrl config.apiEndpoint)
      {c with
        apiEndpoint := normalizeHttpEndpoint parseUrl config.apiEndpoint
        lastCheck := some now}
      healthPaths "API endpoint did not respond" 0 0 hex
    exact ⟨n, by simp [hn]⟩
  · rw [probeApiConnection, if_neg hne] at *
    obtain ⟨e, he, hrec⟩ := probeLoop_all_miss fetchO dur
      (normalizeHttpEndpoint parseUrl config.apiEndpoint)
      {c with
        apiEndpoint := normalizeHttpEndpoint parseUrl config.apiEndpoint
        lastCheck := some now}
      healthPaths "API endpoint did not respond" 0 0 hall (by decide)
    exact ⟨e, he, by simp [hrec]⟩

/-- A network oracle answering HTTP 200 to every request. -/
def fetchAll200 : String → FetchResult := fun _ => FetchResult.http 200 none ""

/-- Claim C5 (witness): the probe theorem applied to the default endpoint
with an all-200 network oracle. -/
theorem c5_probe_reachability_witness :
    ∃ n : ℕ,
      (probeApiConnection fetchAll200 (fun _ => 7) urlOracle "now" sampleConfig
        initialConnectionState).1.apiReachable = true ∧
      (probeApiConnection fetchAll200 (fun _ => 7) urlOracle "now" sampleConfig
        initialConnectionState).1.apiLatencyMs = some n ∧
      (probeApiConnection fetchAll200 (fun _ => 7) urlOracle "now" sampleConfig
        initialConnectionState).1.lastError = none ∧
      (probeApiConnection fetchAll200 (fun _ => 7) urlOracle "now" sampleConfig
        initialConnectionState).1.mode = "remote" :=
  (c5_probe_reachability fetchAll200 (fun _ => 7) urlOracle "now" sampleConfig
    initialConnectionState).2.1 (by decide) (by decide)

/-- The session manager's mutable state: the shared `connectionState`, the
pending reconnect timer (its scheduled delay in ms), the `manualWsDisconnect`
flag, and whether a `wsClient` object exists. -/
structure WsState where
  conn : ConnState
  reconnectTimer : Option ℚ
  manualWsDisconnect : Bool
  clientOpen : Bool
deriving DecidableEq

/-- `clearReconnectTimer` from the source (idempotent). -/
def clearReconnectTimer (s : WsState) : WsState :=
  {s with reconnectTimer := none}

/-- `closeWebSocketClient` from the source. -/
def closeWebSocketClient (s : WsState) : WsState :=
  {s with clientOpen := false}

/-- The delay computed by `maybeScheduleReconnect`:
`clamp(numberOrFallback(config.pollingIntervalMs, 5000), 2000, 30000)`. -/
def reconnectDelayMs (o : JsOracles) (config : StudioConfig) : ℚ :=
  clamp (numberOrFallback o (some config.pollingIntervalMs) 5000) 2000 30000

/-- `maybeScheduleReconnect` from the source: a no-op when auto-reconnect is
off or the operator disconnected manually, otherwise it replaces any pending
timer with one scheduled after the clamped delay. -/
def maybeScheduleReconnect (o : JsOracles) (config : StudioConfig) (s : WsState) : WsState :=
  if jsFalsy config.autoReconnect || s.manualWsDisconnect then s
  else {clearReconnectTimer s with reconnectTimer := some (reconnectDelayMs o config)}

/-- The synchronous prefix of `connectWebSocket`: compute and record the
stream endpoint; on an empty endpoint record the error and return without
touching the timer or the flag; otherwise clear the manual-disconnect flag,
cancel any pending reconnect timer, replace the session and construct a new
client.  The asynchronous `open`/`message`/`error`/`close` continuations are
the `wsOn*` transitions below. -/
def connectWebSocket (parseUrl : String → Option UrlParts) (config : StudioConfig)
    (s : WsState) : WsState :=
  if toWebSocketEndpoint parseUrl config = "" then
    {s with conn := {s.conn with
      wsEndpoint := ""
      wsConnected := false
      lastError := some "WebSocket endpoint is not configured"}}
  else
    { conn := {s.conn with wsEndpoint := toWebSocketEndpoint parseUrl config}
      reconnectTimer := none
      manualWsDisconnect := false
      clientOpen := true }

/-- The `open` handler of `connectWebSocket`. -/
def wsOnOpen (now : String) (s : WsState) : WsState :=
  {s with conn := {s.conn with
    wsConnected := true
    mode := "remote"
    lastError := none
    lastEventAt := some now}}

/-- The `error` handler of `connectWebSocket`. -/
def wsOnError (msg : String) (s : WsState) : WsState :=
  {s with conn := {s.conn with lastError := some msg}}

/-- The `close` handler of `connectWebSocket`: mark the stream disconnected
and, unless the operator disconnected manually, consult the freshly read
config to maybe schedule a reconnect. -/
def wsOnClose (o : JsOracles) (latestConfig : StudioConfig) (s : WsState) : WsState :=
  if ({s with conn := {s.conn with wsConnected := false}} : WsState).manualWsDisconnect then
    {s with conn := {s.conn with wsConnected := false}}
  else
    maybeScheduleReconnect o latestConfig {s with conn := {s.conn with wsConnected := false}}

/-- `disconnectWebSocket` from the source: set the manual flag, cancel the
timer, close the client, mark the stream disconnected. -/
def disconnectWebSocket (s : WsState) : WsState :=
  { conn := {s.conn with wsConnected := false}
    reconnectTimer := none
    manualWsDisconnect := true
    clientOpen := false }

/-- The `remoteCache` plus `runtimeState` state mutated by the stream
message handler and the fetch helpers, together with `connectionState`. -/
structure Store where
  conn : ConnState
  runtime : SnapRec
  remoteSnapshot : Option SnapRec
  remoteLogs : List String
deriving DecidableEq

/-- `mergeSnapshot` from the source: the normalized snapshot carries every
field, so the spread fully replaces `runtimeState`, and `remoteCache.snapshot`
is set to the merged state. -/
def mergeSnapshot (snapshot : SnapRec) (st : Store) : Store :=
  {st with runtime := snapshot, remoteSnapshot := some snapshot}

/-- `handleWsPayload` from the source.  `parseJson` models `JSON.parse`
(`none` = parse failure).  A payload parsing to a JSON string is handled by
the raw-string branch, exactly as `typeof parsed === "string"` dictates. -/
def handleWsPayload (o : JsOracles) (parseJson : String → Option Json) (now raw : String)
    (st : Store) : Store :=
  match parseJson raw with
  | some (Json.str s) =>
    if extractLogs o now none s ≠ [] then
      {st with
        conn := {st.conn with
          lastEventAt := some now
          apiReachable := true
          mode := "remote"
          lastError := none}
        remoteLogs := jsSliceLast 500 (st.remoteLogs ++ extractLogs o now none s)}
    else
      {st with conn := {st.conn with
        lastEventAt := some now
        apiReachable := true
        mode := "remote"
        lastError := none}}
  | none =>
    if extractLogs o now none raw ≠ [] then
      {st with
        conn := {st.conn with
          lastEventAt := some now
          apiReachable := true
          mode := "remote"
          lastError := none}
        remoteLogs := jsSliceLast 500 (st.remoteLogs ++ extractLogs o now none raw)}
    else
      {st with conn := {st.conn with
        lastEventAt := some now
        apiReachable := true
        mode := "remote"
        lastError := none}}
  | some j =>
    if extractLogs o now (some j) "" ≠ [] then
      {(match normalizeSnapshot o st.runtime now (some j) with
        | some snapshot =>
          mergeSnapshot snapshot {st with conn := {st.conn with
            lastEventAt := some now
            apiReachable := true
            mode := "remote"
            lastError := none}}
        | none =>
          {st with conn := {st.conn with
            lastEventAt := some now
            apiReachable := true
            mode := "remote"
            lastError := none}}) with
        remoteLogs := jsSliceLast 500 (st.remoteLogs ++ extractLogs o now (some j) "")}
    else
      match normalizeSnapshot o st.runtime now (some j) with
      | some snapshot =>
        mergeSnapshot snapshot {st with conn := {st.conn with
          lastEventAt := some now
          apiReachable := true
          mode := "remote"
          lastError := none}}
      | none =>
        {st with conn := {st.conn with
          lastEventAt := some now
          apiReachable := true
          mode := "remote"
          lastError := none}}

/-- The Connection State Store invariant of the specification: `mode` is
`"remote"` exactly when `apiReachable` or `wsConnected` holds, `"local"`
otherwise. -/
def ModeInv (c : ConnState) : Prop :=
  c.mode = if c.apiReachable || c.wsConnected then "remote" else "local"

instance (c : ConnState) : Decidable (ModeInv c) :=
  inferInstanceAs (Decidable (c.mode = if c.apiReachable || c.wsConnected then "remote" else "local"))

theorem handleWsPayload_conn (o : JsOracles) (parseJson : String → Option Json)
    (now raw : String) (st : Store) :
    (handleWsPayload o parseJson now raw st).conn =
      {st.conn with
        lastEventAt := some now
        apiReachable := true
        mode := "remote"
        lastError := none} := by
  rw [handleWsPayload]
  split <;> split_ifs <;> first
    | rfl
    | (split <;> simp [mergeSnapshot])

theorem probeLoop_ModeInv (fetchO : String → FetchResult) (dur : String → ℕ)
    (apiEndpoint : String) (c : ConnState) (paths : List String)
    (latestError : String) (elapsed requests : ℕ) :
    ModeInv (probeLoop fetchO dur apiEndpoint c paths latestError elapsed requests).1 := by
  induction paths generalizing latestError elapsed requests with
  | nil => simp [probeLoop, ModeInv]
  | cons p rest ih =>
    rw [probeLoop]
    split_ifs with h
    · simp [ModeInv]
    · exact ih _ _ _

/-- A reachable stale state: stream connected while HTTP probing fails, so
`mode = "remote"` rests on `wsConnected` alone (this arises from a stream
`open` event while `apiReachable` is false). -/
def staleConn : ConnState :=
  { mode := "remote"
    apiReachable := false
    apiEndpoint := ""
    apiLatencyMs := none
    wsConnected := true
    wsEndpoint := "ws://127.0.0.1:5050/ws"
    lastCheck := none
    lastEventAt := none
    lastError := none }

/-- The session state wrapping `staleConn`. -/
def staleWsState : WsState :=
  { conn := staleConn
    reconnectTimer := none
    manualWsDisconnect := false
    clientOpen := true }

/-- Claim C1 (counterexample): the operator-disconnect write does not
preserve the invariant.  From the invariant-satisfying state in which only
the stream kept `mode = "remote"`, `disconnectWebSocket` clears
`wsConnected` but leaves `mode` untouched, so `mode` stays `"remote"` with
both reachability flags false.  The stream `close` handler breaks it the
same way. -/
theorem c1_mode_invariant_counterexample :
    ModeInv staleConn ∧ ¬ ModeInv (disconnectWebSocket staleWsState).conn := by
  constructor <;> decide

theorem ModeInv_ws_false (c : ConnState) (h : ModeInv c)
    (himp : c.wsConnected = true → c.apiReachable = true) :
    ModeInv {c with wsConnected := false} := by
  unfold ModeInv at *
  cases hw : c.wsConnected with
  | false => rw [hw] at h; simpa using h
  | true =>
    have ha := himp hw
    rw [hw, ha] at h
    simpa [ha] using h

/-- Claim C1 (amended): the HTTP probe (success, failure and
empty-endpoint), the stream `open` handler and the stream `message` handler
preserve the invariant `mode = "remote" iff (apiReachable or wsConnected)`
unconditionally; the stream `close` handler and `disconnectWebSocket` set
`wsConnected := false` without recomputing `mode`, so they preserve the
invariant only under the extra assumption that the API was reachable
whenever the stream was connected — from a state where only the stream held
the mode remote, they leave `mode = "remote"` with both flags false. -/
theorem c1_mode_invariant_amended :
    (∀ (fetchO : String → FetchResult) (dur : String → ℕ)
        (parseUrl : String → Option UrlParts) (now : String) (config : StudioConfig)
        (c : ConnState),
      ModeInv (probeApiConnection fetchO dur parseUrl now config c).1) ∧
    (∀ (now : String) (s : WsState), ModeInv (wsOnOpen now s).conn) ∧
    (∀ (o : JsOracles) (parseJson : String → Option Json) (now raw : String) (st : Store),
      ModeInv (handleWsPayload o parseJson now raw st).conn) ∧
    (∀ (o : JsOracles) (config : StudioConfig) (s : WsState), ModeInv s.conn →
      (s.conn.wsConnected = true → s.conn.apiReachable = true) →
      ModeInv (wsOnClose o config s).conn) ∧
    (∀ s : WsState, ModeInv s.conn →
      (s.conn.wsConnected = true → s.conn.apiReachable = true) →
      ModeInv (disconnectWebSocket s).conn) := by
  refine ⟨fun fetchO dur parseUrl now config c => ?_, fun now s => ?_,
    fun o parseJson now raw st => ?_, fun o config s h himp => ?_, fun s h himp => ?_⟩
  · by_cases h : normalizeHttpEndpoint parseUrl config.apiEndpoint = ""
    · rw [probeApiConnection, if_pos h, ModeInv]
      cases hw : c.wsConnected <;> simp [hw]
    · rw [probeApiConnection, if_neg h]
      exact probeLoop_ModeInv fetchO dur _ _ healthPaths _ 0 0
  · simp [wsOnOpen, ModeInv]
  · rw [ModeInv, handleWsPayload_conn]
    simp
  · have hc : (wsOnClose o config s).conn = {s.conn with wsConnected := false} := by
      rw [wsOnClose]
      split_ifs with hm
      · rfl
      · rw [maybeScheduleReconnect]
        split_ifs <;> rfl
    rw [hc]
    exact ModeInv_ws_false s.conn h himp
  · exact ModeInv_ws_false s.conn h himp

/-- A fully connected state (both HTTP and stream reachable). -/
def connectedWsState : WsState :=
  { conn :=
      { mode := "remote"
        apiReachable := true
        apiEndpoint := "http://127.0.0.1:5050"
        apiLatencyMs := some 5
        wsConnected := true
        wsEndpoint := "ws://127.0.0.1:5050/ws"
        lastCheck := none
        lastEventAt := none
        lastError := none }
    reconnectTimer := none
    manualWsDisconnect := false
    clientOpen := true }

/-- Claim C1 (witness): the amended theorem's disconnect clause applied to a
concrete state whose API is reachable. -/
theorem c1_mode_invariant_witness :
    ModeInv (disconnectWebSocket connectedWsState).conn :=
  c1_mode_invariant_amended.2.2.2.2 connectedWsState (by decide) (fun _ => by decide)

/-- The URL-parser oracle that rejects everything (never consulted on the
empty endpoint anyway). -/
def noUrlParse : String → Option UrlParts := fun _ => none

/-- A configuration whose computed stream endpoint is empty. -/
def emptyConfig : StudioConfig :=
  { apiEndpoint := ""
    wsEndpoint := ""
    pollingIntervalMs := Json.num 5000
    autoReconnect := Json.bool true }

/-- A session state with a pending reconnect timer. -/
def c3PendingState : WsState :=
  { conn := initialConnectionState
    reconnectTimer := some 5000
    manualWsDisconnect := false
    clientOpen := false }

/-- Claim C3 (counterexample): for a config whose computed stream endpoint
is empty, `connectWebSocket` returns before `clearReconnectTimer`, so a
pending reconnect timer survives the connect call intact. -/
theorem c3_reconnect_counterexample :
    toWebSocketEndpoint noUrlParse emptyConfig = "" ∧
    c3PendingState.reconnectTimer = some 5000 ∧
    (connectWebSocket noUrlParse emptyConfig c3PendingState).reconnectTimer = some 5000 := by
  refine ⟨by decide, by decide, by decide⟩

/-- Claim C3 (amended): every scheduled reconnect delay lies in
[2000, 30000] ms, and `connectWebSocket` cancels any pending reconnect
timer whenever the computed stream endpoint is non-empty; when the endpoint
is empty it returns immediately and leaves the pending timer untouched. -/
theorem c3_reconnect_amended :
    (∀ (o : JsOracles) (config : StudioConfig),
      2000 ≤ reconnectDelayMs o config ∧ reconnectDelayMs o config ≤ 30000) ∧
    (∀ (o : JsOracles) (config : StudioConfig) (s : WsState),
      (maybeScheduleReconnect o config s).reconnectTimer = s.reconnectTimer ∨
      (maybeScheduleReconnect o config s).reconnectTimer = some (reconnectDelayMs o config)) ∧
    (∀ (parseUrl : String → Option UrlParts) (config : StudioConfig) (s : WsState),
      toWebSocketEndpoint parseUrl config ≠ "" →
      (connectWebSocket parseUrl config s).reconnectTimer = none) ∧
    (∀ (parseUrl : String → Option UrlParts) (config : StudioConfig) (s : WsState),
      toWebSocketEndpoint parseUrl config = "" →
      (connectWebSocket parseUrl config s).reconnectTimer = s.reconnectTimer) := by
  refine ⟨fun o config => clamp_mem _ _ _ (by norm_num),
    fun o config s => ?_, fun parseUrl config s h => ?_, fun parseUrl config s h => ?_⟩
  · rw [maybeScheduleReconnect]
    split_ifs <;> simp [clearReconnectTimer]
  · rw [connectWebSocket, if_neg h]
  · rw [connectWebSocket, if_pos h]

/-- Claim C3 (witness): the amended theorem applied to the default config
(delay bounds) and to a concrete connect call with a non-empty endpoint
cancelling a pending timer. -/
theorem c3_reconnect_witness :
    (2000 ≤ reconnectDelayMs trivOracles sampleConfig ∧
      reconnectDelayMs trivOracles sampleConfig ≤ 30000) ∧
    (connectWebSocket urlOracle sampleConfig c3PendingState).reconnectTimer = none :=
  ⟨c3_reconnect_amended.1 trivOracles sampleConfig,
    c3_reconnect_amended.2.2.1 urlOracle sampleConfig c3PendingState (by decide)⟩

/-- A session state the operator has manually disconnected. -/
def c4ManualState : WsState :=
  { conn := initialConnectionState
    reconnectTimer := none
    manualWsDisconnect := true
    clientOpen := false }

/-- Claim C4 (counterexample): for a config whose computed stream endpoint
is empty, `connectWebSocket` returns before clearing the manual-disconnect
flag, so the flag survives a connect call. -/
theorem c4_manual_flag_counterexample :
    toWebSocketEndpoint noUrlParse emptyConfig = "" ∧
    (connectWebSocket noUrlParse emptyConfig c4ManualState).manualWsDisconnect = true := by
  refine ⟨by decide, by decide⟩

/-- Claim C4 (amended): `disconnectWebSocket` sets the manual-disconnect
flag and cancels any pending timer; a subsequent close event schedules no
reconnect timer regardless of the auto-reconnect setting; and the flag is
cleared by `connectWebSocket` exactly when the computed stream endpoint is
non-empty — on an empty endpoint the call returns with the flag unchanged. -/
theorem c4_manual_flag_amended :
    (∀ s : WsState, (disconnectWebSocket s).manualWsDisconnect = true ∧
      (disconnectWebSocket s).reconnectTimer = none) ∧
    (∀ (o : JsOracles) (config : StudioConfig) (s : WsState),
      s.manualWsDisconnect = true →
      (wsOnClose o config s).reconnectTimer = s.reconnectTimer) ∧
    (∀ (o : JsOracles) (config : StudioConfig) (s : WsState),
      (wsOnClose o config (disconnectWebSocket s)).reconnectTimer = none) ∧
    (∀ (parseUrl : String → Option UrlParts) (config : StudioConfig) (s : WsState),
      toWebSocketEndpoint parseUrl config ≠ "" →
      (connectWebSocket parseUrl config s).manualWsDisconnect = false) ∧
    (∀ (parseUrl : String → Option UrlParts) (config : StudioConfig) (s : WsState),
      toWebSocketEndpoint parseUrl config = "" →
      (connectWebSocket parseUrl config s).manualWsDisconnect = s.manualWsDisconnect) := by
  refine ⟨fun s => ⟨rfl, rfl⟩, fun o config s hm => ?_, fun o config s => ?_,
    fun parseUrl config s h => ?_, fun parseUrl config s h => ?_⟩
  · rw [wsOnClose]
    simp [hm]
  · rw [wsOnClose]
    simp [disconnectWebSocket]
  · rw [connectWebSocket, if_neg h]
  · rw [connectWebSocket, if_pos h]

/-- Claim C4 (witness): the amended theorem applied concretely — a close
event right after a manual disconnect schedules nothing, and a connect call
with a non-empty endpoint clears the flag. -/
theorem c4_manual_flag_witness :
    (wsOnClose trivOracles sampleConfig (disconnectWebSocket connectedWsState)).reconnectTimer
        = none ∧
      (connectWebSocket urlOracle sampleConfig c4ManualState).manualWsDisconnect = false :=
  ⟨c4_manual_flag_amended.2.2.1 trivOracles sampleConfig connectedWsState,
    c4_manual_flag_amended.2.2.2.1 urlOracle sampleConfig c4ManualState (by decide)⟩

theorem formatLog_ne_empty (now msg level : String) : formatLog now msg level ≠ "" := by
  intro h
  have hl := congrArg String.length h
  simp [formatLog, String.length_append] at hl
  exact absurd hl.1.1.1.1.1 (by decide)

/-- The store at process start: initial connection state, seeded runtime
state, empty remote cache. -/
def initialStore : Store :=
  { conn := initialConnectionState
    runtime := initialRuntimeState "t0"
    remoteSnapshot := none
    remoteLogs := [] }

set_option maxRecDepth 8000 in
/-- Claim C9: a stream message that does not parse as JSON (a single
non-blank line without the canonical timestamp prefix, such as
`"job finished"`) appends exactly one formatted log line with the `REMOTE`
level tag to the log cache and leaves the cached Snapshot (`runtimeState`,
and the cached remote snapshot) unchanged. -/
theorem c9_stream_text_message (o : JsOracles) (parseJson : String → Option Json)
    (now raw : String) (st : Store)
    (hparse : parseJson raw = none)
    (hsplit : jsSplitLines raw = [raw])
    (htrim : jsTrim raw ≠ "")
    (hts : tsPrefixed raw = false) :
    (handleWsPayload o parseJson now raw st).runtime = st.runtime ∧
    (handleWsPayload o parseJson now raw st).remoteSnapshot = st.remoteSnapshot ∧
    (handleWsPayload o parseJson now raw st).remoteLogs =
      jsSliceLast 500 (st.remoteLogs ++ [formatLog now ("[REMOTE] " ++ raw) "REMOTE"]) := by
  have hsel : selectEntries none raw = [Json.str raw] := by
    show (if jsTrim raw ≠ "" then (jsSplitLines raw).map Json.str else []) = [Json.str raw]
    rw [if_pos htrim, hsplit]
    rfl
  have hmap : mapLogEntry o now (Json.str raw) =
      some (formatLog now ("[REMOTE] " ++ raw) "REMOTE") := by
    show (if jsTrim raw = "" then none
      else some (if tsPrefixed raw then raw else formatLog now ("[REMOTE] " ++ raw) "REMOTE")) =
        some (formatLog now ("[REMOTE] " ++ raw) "REMOTE")
    rw [if_neg htrim, hts]
    rfl
  have hfb : jsFilterBoolean [some (formatLog now ("[REMOTE] " ++ raw) "REMOTE")] =
      [formatLog now ("[REMOTE] " ++ raw) "REMOTE"] := by
    simp [jsFilterBoolean, formatLog_ne_empty now ("[REMOTE] " ++ raw) "REMOTE"]
  have hlogs : extractLogs o now none raw = [formatLog now ("[REMOTE] " ++ raw) "REMOTE"] := by
    rw [extractLogs, hsel]
    simp only [List.map_cons, List.map_nil, hmap]
    rw [hfb]
    rfl
  simp only [handleWsPayload, hparse]
  rw [if_pos (by rw [hlogs]; exact List.cons_ne_nil _ _)]
  rw [hlogs]
  exact ⟨rfl, rfl, rfl⟩

/-- Claim C9 (witness): the theorem applied to the literal message
`"job finished"` with a parse oracle on which JSON parsing fails. -/
theorem c9_stream_text_message_witness :
    (handleWsPayload trivOracles (fun _ => none) "2024-01-01T00:00:00.000Z" "job finished"
        initialStore).runtime = initialStore.runtime ∧
    (handleWsPayload trivOracles (fun _ => none) "2024-01-01T00:00:00.000Z" "job finished"
        initialStore).remoteSnapshot = initialStore.remoteSnapshot ∧
    (handleWsPayload trivOracles (fun _ => none) "2024-01-01T00:00:00.000Z" "job finished"
        initialStore).remoteLogs =
      jsSliceLast 500 (initialStore.remoteLogs ++
        [formatLog "2024-01-01T00:00:00.000Z" ("[REMOTE] " ++ "job finished") "REMOTE"]) :=
  c9_stream_text_message trivOracles (fun _ => none) "2024-01-01T00:00:00.000Z" "job finished"
    initialStore rfl (by decide) (by decide) (by decide)

/-- The candidate loop of `fetchRemoteLogs`: the first OK response whose
payload yields at least one log line replaces the remote log cache and is
returned (capped at 250); exhaustion returns the cached remote logs (capped
at 250). -/
def logsLoop (o : JsOracles) (fetchO : String → FetchResult) (now apiEndpoint : String)
    (st : Store) (paths : List String) : List String × Store :=
  match paths with
  | [] => (jsSliceLast 250 st.remoteLogs, st)
  | p :: rest =>
    if respOk (fetchO (joinUrl apiEndpoint p)) then
      if extractLogs o now (respData (fetchO (joinUrl apiEndpoint p)))
          (respText (fetchO (joinUrl apiEndpoint p))) ≠ [] then
        (jsSliceLast 250 (extractLogs o now (respData (fetchO (joinUrl apiEndpoint p)))
            (respText (fetchO (joinUrl apiEndpoint p)))),
         {st with
            remoteLogs := extractLogs o now (respData (fetchO (joinUrl apiEndpoint p)))
              (respText (fetchO (joinUrl apiEndpoint p)))
            conn := {st.conn with
              apiReachable := true
              mode := "remote"
              lastError := none}})
      else logsLoop o fetchO now apiEndpoint st rest
    else logsLoop o fetchO now apiEndpoint st rest

/-- `fetchRemoteLogs` from the source. -/
def fetchRemoteLogs (o : JsOracles) (parseUrl : String → Option UrlParts)
    (fetchO : String → FetchResult) (config : StudioConfig) (now : String) (st : Store) :
    List String × Store :=
  if normalizeHttpEndpoint parseUrl config.apiEndpoint = "" then ([], st)
  else logsLoop o fetchO now (normalizeHttpEndpoint parseUrl config.apiEndpoint) st logsPaths

/-- `readLocalLogs` from the source, over the log file's contents:
`contents.split("\n").filter(Boolean).slice(-limit)`. -/
def readLocalLogs (limit : ℕ) (contents : String) : List String :=
  jsSliceLast limit ((jsSplitOnNewline contents).filter (fun l => l ≠ ""))

/-- `getCombinedLogs` from the source (its return value; the store threading
happens inside `fetchRemoteLogs`). -/
def getCombinedLogs (o : JsOracles) (parseUrl : String → Option UrlParts)
    (fetchO : String → FetchResult) (config : StudioConfig) (now : String) (st : Store)
    (localContents : String) : List String :=
  if (fetchRemoteLogs o parseUrl fetchO config now st).1 = [] then
    readLocalLogs 120 localContents
  else
    jsSliceLast 40 (readLocalLogs 120 localContents) ++
      jsSliceLast 210 (fetchRemoteLogs o parseUrl fetchO config now st).1

/-- Claim C10: the logs facade returns at most 250 lines in every case —
at most 120 local lines when no remote logs are available, and otherwise
the last at-most-40 local lines followed by the last at-most-210 remote
lines — even though the underlying caches may hold up to 500 entries. -/
theorem c10_combined_logs_bounds (o : JsOracles) (parseUrl : String → Option UrlParts)
    (fetchO : String → FetchResult) (config : StudioConfig) (now : String) (st : Store)
    (localContents : String) :
    (getCombinedLogs o parseUrl fetchO config now st localContents).length ≤ 250 ∧
    (readLocalLogs 120 localContents).length ≤ 120 ∧
    ((fetchRemoteLogs o parseUrl fetchO config now st).1 = [] →
      getCombinedLogs o parseUrl fetchO config now st localContents =
        readLocalLogs 120 localContents) ∧
    ((fetchRemoteLogs o parseUrl fetchO config now st).1 ≠ [] →
      getCombinedLogs o parseUrl fetchO config now st localContents =
        jsSliceLast 40 (readLocalLogs 120 localContents) ++
          jsSliceLast 210 (fetchRemoteLogs o parseUrl fetchO config now st).1) := by
  have hlocal : (readLocalLogs 120 localContents).length ≤ 120 :=
    jsSliceLast_length_le _ _
  refine ⟨?_, hlocal, fun hr => by rw [getCombinedLogs, if_pos hr],
    fun hr => by rw [getCombinedLogs, if_neg hr]⟩
  by_cases hr : (fetchRemoteLogs o parseUrl fetchO config now st).1 = []
  · rw [getCombinedLogs, if_pos hr]
    omega
  · rw [getCombinedLogs, if_neg hr, List.length_append]
    have h40 := jsSliceLast_length_le 40 (readLocalLogs 120 localContents)
    have h210 := jsSliceLast_length_le 210 (fetchRemoteLogs o parseUrl fetchO config now st).1
    omega

/-- A network oracle on which every request fails with a transport error. -/
def failFetch : String → FetchResult := fun _ => FetchResult.fail "connect ECONNREFUSED"

/-- Claim C10 (witness): the bounds theorem applied to a concrete state with
an unreachable backend — the facade returns exactly the local lines. -/
theorem c10_combined_logs_witness :
    (getCombinedLogs trivOracles noUrlParse failFetch emptyConfig "now" initialStore
        "line1\nline2").length ≤ 250 ∧
      getCombinedLogs trivOracles noUrlParse failFetch emptyConfig "now" initialStore
          "line1\nline2" =
        readLocalLogs 120 "line1\nline2" :=
  ⟨(c10_combined_logs_bounds trivOracles noUrlParse failFetch emptyConfig "now" initialStore
      "line1\nline2").1,
    (c10_combined_logs_bounds trivOracles noUrlParse failFetch emptyConfig "now" initialStore
      "line1\nline2").2.2.1 (by decide)⟩

/-- `shouldProbeNow` from the source: re-probe when no probe was recorded
yet or more than 15 seconds elapsed.  `nowMs` is `Date.now()` and
`parseDate` models `new Date(string).getTime()`. -/
def shouldProbeNow (nowMs : ℤ) (parseDate : String → ℤ) (c : ConnState) : Bool :=
  match c.lastCheck with
  | none => true
  | some t => decide (nowMs - parseDate t > 15000)

/-- `getLocalSnapshot` from the source: refresh the heartbeat on
`runtimeState` and return a copy. -/
def getLocalSnapshot (now : String) (st : Store) : SnapRec × Store :=
  ({st.runtime with lastHeartbeat := now},
   {st with runtime := {st.runtime with lastHeartbeat := now}})

/-- The candidate loop of `fetchRemoteSnapshot`: the first OK response whose
body normalizes into a snapshot wins, marks the API reachable, and is merged;
on exhaustion the cached stream snapshot is merged if the stream is
connected. -/
def snapshotLoop (o : JsOracles) (fetchO : String → FetchResult) (now apiEndpoint : String)
    (st : Store) (paths : List String) : Option SnapRec × Store :=
  match paths with
  | [] =>
    if st.conn.wsConnected && st.remoteSnapshot.isSome then
      match st.remoteSnapshot with
      | some snapshot => (some snapshot, mergeSnapshot snapshot st)
      | none => (none, st)
    else (none, st)
  | p :: rest =>
    if respOk (fetchO (joinUrl apiEndpoint p)) then
      match normalizeSnapshot o st.runtime now (respData (fetchO (joinUrl apiEndpoint p))) with
      | some snapshot =>
        (some snapshot,
          mergeSnapshot snapshot {st with conn := {st.conn with
            apiReachable := true
            mode := "remote"
            lastError := none}})
      | none => snapshotLoop o fetchO now apiEndpoint st rest
    else snapshotLoop o fetchO now apiEndpoint st rest

/-- `fetchRemoteSnapshot` from the source: short-circuit on an empty
endpoint, probe as a side effect when the cool-down expired, then walk the
snapshot candidate paths. -/
def fetchRemoteSnapshot (o : JsOracles) (parseUrl : String → Option UrlParts)
    (fetchProbe fetchSnap : String → FetchResult) (dur : String → ℕ)
    (nowMs : ℤ) (parseDate : String → ℤ) (now : String) (config : StudioConfig)
    (st : Store) : Option SnapRec × Store :=
  if normalizeHttpEndpoint parseUrl config.apiEndpoint = "" then (none, st)
  else
    snapshotLoop o fetchSnap now (normalizeHttpEndpoint parseUrl config.apiEndpoint)
      (if shouldProbeNow nowMs parseDate st.conn then
        {st with conn := (probeApiConnection fetchProbe dur parseUrl now config st.conn).1}
      else st)
      snapshotPaths

/-- Wrap a string in single quotes, as the template literals in the action
messages do. -/
def squote (s : String) : String := String.mk ('\'' :: s.data ++ ['\''])

/-- `ActionResult` from the source. -/
structure ActionResult where
  ok : Bool
  message : String
  snapshot : SnapRec
deriving DecidableEq

/-- The candidate loop of `tryRemoteAction`: the first OK response to the
POST wins; its snapshot comes from the response body, else from a follow-up
`fetchRemoteSnapshot`, else from the local snapshot. -/
def actionLoop (o : JsOracles) (parseUrl : String → Option UrlParts)
    (fetchProbe fetchSnap fetchAct : String → FetchResult) (dur : String → ℕ)
    (nowMs : ℤ) (parseDate : String → ℤ) (now : String) (config : StudioConfig)
    (action apiEndpoint : String) (st : Store) (paths : List String) :
    Option ActionResult × Store :=
  match paths with
  | [] => (none, st)
  | p :: rest =>
    if respOk (fetchAct (joinUrl apiEndpoint p)) then
      match normalizeSnapshot o st.runtime now (respData (fetchAct (joinUrl apiEndpoint p))) with
      | some snapshotFromAction =>
        (some { ok := true
                message := "Action " ++ squote action ++ " sent to remote backend"
                snapshot := snapshotFromAction }, st)
      | none =>
        match fetchRemoteSnapshot o parseUrl fetchProbe fetchSnap dur nowMs parseDate now
            config st with
        | (some snapshot, st2) =>
          (some { ok := true
                  message := "Action " ++ squote action ++ " sent to remote backend"
                  snapshot := snapshot }, st2)
        | (none, st2) =>
          (some { ok := true
                  message := "Action " ++ squote action ++ " sent to remote backend"
                  snapshot := (getLocalSnapshot now st2).1 }, (getLocalSnapshot now st2).2)
    else
      actionLoop o parseUrl fetchProbe fetchSnap fetchAct dur nowMs parseDate now config
        action apiEndpoint st rest

/-- `tryRemoteAction` from the source. -/
def tryRemoteAction (o : JsOracles) (parseUrl : String → Option UrlParts)
    (fetchProbe fetchSnap fetchAct : String → FetchResult) (dur : String → ℕ)
    (nowMs : ℤ) (parseDate : String → ℤ) (now : String) (config : StudioConfig)
    (action : String) (st : Store) : Option ActionResult × Store :=
  if normalizeHttpEndpoint parseUrl config.apiEndpoint = "" then (none, st)
  else
    actionLoop o parseUrl fetchProbe fetchSnap fetchAct dur nowMs parseDate now config
      action (normalizeHttpEndpoint parseUrl config.apiEndpoint) st actionPaths

/-- The local simulated transition in `performBotAction`'s switch. -/
def localBotTransition (action : String) (rt : SnapRec) : SnapRec :=
  if action = "start" then
    {rt with status := "running", activeWorkers := jsMin 8 (rt.activeWorkers + 1)}
  else if action = "pause" then {rt with status := "paused"}
  else if action = "resume" then {rt with status := "running"}
  else if action = "stop" then {rt with status := "stopped", activeWorkers := 0}
  else if action = "sync" then
    {rt with
      queueDepth := jsMax 0 (rt.queueDepth - 2)
      jobsProcessed := rt.jobsProcessed + 3
      successRate := jsMin (mkRat 999 10) (rt.successRate + mkRat 1 10)}
  else rt

/-- `performBotAction` from the source: remote-first, then the local
simulated transition followed by the unconditional heartbeat refresh and
`getLocalSnapshot` copy. -/
def performBotAction (o : JsOracles) (parseUrl : String → Option UrlParts)
    (fetchProbe fetchSnap fetchAct : String → FetchResult) (dur : String → ℕ)
    (nowMs : ℤ) (parseDate : String → ℤ) (now : String) (config : StudioConfig)
    (action : String) (st : Store) : ActionResult × Store :=
  match tryRemoteAction o parseUrl fetchProbe fetchSnap fetchAct dur nowMs parseDate now
      config action st with
  | (some result, st2) => (result, st2)
  | (none, st2) =>
    ({ ok := true
       message := "Action " ++ squote action ++ " completed locally (remote endpoint unavailable)"
       snapshot := {localBotTransition action st2.runtime with lastHeartbeat := now} },
     {st2 with runtime := {localBotTransition action st2.runtime with lastHeartbeat := now}})

theorem actionLoop_all_not_ok (o : JsOracles) (parseUrl : String → Option UrlParts)
    (fetchProbe fetchSnap fetchAct : String → FetchResult) (dur : String → ℕ)
    (nowMs : ℤ) (parseDate : String → ℤ) (now : String) (config : StudioConfig)
    (action apiEndpoint : String) (st : Store) (paths : List String)
    (hall : ∀ p ∈ paths, respOk (fetchAct (joinUrl apiEndpoint p)) = false) :
    actionLoop o parseUrl fetchProbe fetchSnap fetchAct dur nowMs parseDate now config
      action apiEndpoint st paths = (none, st) := by
  induction paths with
  | nil => rfl
  | cons p rest ih =>
    rw [actionLoop, if_neg (by simp [hall p (List.mem_cons_self p rest)])]
    exact ih fun q hq => hall q (List.mem_cons_of_mem p hq)

/-- Claim C6 (counterexample): with the remote path unavailable, an
unrecognized action still changes the cached Snapshot — `performBotAction`
unconditionally refreshes the `lastHeartbeat` field, so "changes no
snapshot field" fails on the snapshot's heartbeat. -/
theorem c6_local_action_counterexample :
    initialStore.runtime.lastHeartbeat = "t0" ∧
    (performBotAction trivOracles noUrlParse failFetch failFetch failFetch (fun _ => 0)
        0 (fun _ => 0) "t1" emptyConfig "noop" initialStore).1.snapshot.lastHeartbeat = "t1" ∧
    (performBotAction trivOracles noUrlParse failFetch failFetch failFetch (fun _ => 0)
        0 (fun _ => 0) "t1" emptyConfig "noop" initialStore).1.snapshot ≠
      initialStore.runtime := by
  refine ⟨rfl, by decide, by decide⟩

/-- Claim C6 (amended): when no remote action candidate succeeds (empty
endpoint or no OK response on any action path), `performBotAction` returns
`ok = true` and applies the deterministic local transition to the cached
snapshot — start: running and min(8, workers+1); pause: paused; resume:
running; stop: stopped with 0 workers; sync: max(0, queue-2), jobs+3,
min(99.9, rate+0.1); an unrecognized action changes no snapshot field other
than `lastHeartbeat` — with `lastHeartbeat` refreshed to the current time on
every action, recognized or not. -/
theorem c6_local_action_amended (o : JsOracles) (parseUrl : String → Option UrlParts)
    (fetchProbe fetchSnap fetchAct : String → FetchResult) (dur : String → ℕ)
    (nowMs : ℤ) (parseDate : String → ℤ) (now : String) (config : StudioConfig)
    (action : String) (st : Store)
    (hnone : normalizeHttpEndpoint parseUrl config.apiEndpoint = "" ∨
      ∀ p ∈ actionPaths,
        respOk (fetchAct (joinUrl (normalizeHttpEndpoint parseUrl config.apiEndpoint) p))
          = false) :
    (performBotAction o parseUrl fetchProbe fetchSnap fetchAct dur nowMs parseDate now config
      action st).1.ok = true ∧
    (action = "start" →
      (performBotAction o parseUrl fetchProbe fetchSnap fetchAct dur nowMs parseDate now config
        action st).1.snapshot =
      {st.runtime with
        status := "running"
        activeWorkers := jsMin 8 (st.runtime.activeWorkers + 1)
        lastHeartbeat := now}) ∧
    (action = "pause" →
      (performBotAction o parseUrl fetchProbe fetchSnap fetchAct dur nowMs parseDate now config
        action st).1.snapshot =
      {st.runtime with status := "paused", lastHeartbeat := now}) ∧
    (action = "resume" →
      (performBotAction o parseUrl fetchProbe fetchSnap fetchAct dur nowMs parseDate now config
        action st).1.snapshot =
      {st.runtime with status := "running", lastHeartbeat := now}) ∧
    (action = "stop" →
      (performBotAction o parseUrl fetchProbe fetchSnap fetchAct dur nowMs parseDate now config
        action st).1.snapshot =
      {st.runtime with status := "stopped", activeWorkers := 0, lastHeartbeat := now}) ∧
    (action = "sync" →
      (performBotAction o parseUrl fetchProbe fetchSnap fetchAct dur nowMs parseDate now config
        action st).1.snapshot =
      {st.runtime with
        queueDepth := jsMax 0 (st.runtime.queueDepth - 2)
        jobsProcessed := st.runtime.jobsProcessed + 3
        successRate := jsMin (mkRat 999 10) (st.runtime.successRate + mkRat 1 10)
        lastHeartbeat := now}) ∧
    (action ∉ (["start", "pause", "resume", "stop", "sync"] : List String) →
      (performBotAction o parseUrl fetchProbe fetchSnap fetchAct dur nowMs parseDate now config
        action st).1.snapshot =
      {st.runtime with lastHeartbeat := now}) := by
  have htry : tryRemoteAction o parseUrl fetchProbe fetchSnap fetchAct dur nowMs parseDate now
      config action st = (none, st) := by
    rw [tryRemoteAction]
    split_ifs with h
    · rfl
    · rcases hnone with h' | h'
      · exact absurd h' h
      · exact actionLoop_all_not_ok o parseUrl fetchProbe fetchSnap fetchAct dur nowMs
          parseDate now config action _ st actionPaths h'
  simp only [performBotAction, htry]
  refine ⟨trivial, fun ha => ?_, fun ha => ?_, fun ha => ?_, fun ha => ?_, fun ha => ?_,
    fun ha => ?_⟩
  · subst ha; simp [localBotTransition]
  · subst ha; simp [localBotTransition]
  · subst ha; simp [localBotTransition]
  · subst ha; simp [localBotTransition]
  · subst ha; simp [localBotTransition]
  · have h1 : ¬ action = "start" := fun h => ha (by rw [h]; decide)
    have h2 : ¬ action = "pause" := fun h => ha (by rw [h]; decide)
    have h3 : ¬ action = "resume" := fun h => ha (by rw [h]; decide)
    have h4 : ¬ action = "stop" := fun h => ha (by rw [h]; decide)
    have h5 : ¬ action = "sync" := fun h => ha (by rw [h]; decide)
    simp [localBotTransition, h1, h2, h3, h4, h5]

/-- The specification scenario's starting store: status idle with 3 active
workers. -/
def c6ScenarioStore : Store :=
  { conn := initialConnectionState
    runtime :=
      { status := "idle"
        queueDepth := 18
        jobsProcessed := 1284
        successRate := mkRat 943 10
        activeWorkers := 3
        lastHeartbeat := "t0" }
    remoteSnapshot := none
    remoteLogs := [] }

/-- Claim C6 (witness): the amended theorem applied to the specification
scenario — `start` from idle with 3 workers, remote unreachable, yields
`ok = true` with status running and 4 active workers. -/
theorem c6_local_action_witness :
    (performBotAction trivOracles noUrlParse failFetch failFetch failFetch (fun _ => 0) 0
        (fun _ => 0) "t1" emptyConfig "start" c6ScenarioStore).1.ok = true ∧
    (performBotAction trivOracles noUrlParse failFetch failFetch failFetch (fun _ => 0) 0
        (fun _ => 0) "t1" emptyConfig "start" c6ScenarioStore).1.snapshot.status = "running" ∧
    (performBotAction trivOracles noUrlParse failFetch failFetch failFetch (fun _ => 0) 0
        (fun _ => 0) "t1" emptyConfig "start" c6ScenarioStore).1.snapshot.activeWorkers = 4 :=
  ⟨(c6_local_action_amended trivOracles noUrlParse failFetch failFetch failFetch (fun _ => 0) 0
      (fun _ => 0) "t1" emptyConfig "start" c6ScenarioStore (Or.inl (by decide))).1,
    by rw [(c6_local_action_amended trivOracles noUrlParse failFetch failFetch failFetch
        (fun _ => 0) 0 (fun _ => 0) "t1" emptyConfig "start" c6ScenarioStore
        (Or.inl (by decide))).2.1 rfl],
    by
      rw [(c6_local_action_amended trivOracles noUrlParse failFetch failFetch failFetch
        (fun _ => 0) 0 (fun _ => 0) "t1" emptyConfig "start" c6ScenarioStore
        (Or.inl (by decide))).2.1 rfl]
      show jsMin 8 (c6ScenarioStore.runtime.activeWorkers + 1) = 4
      norm_num [jsMin, c6ScenarioStore]⟩
